import Mathlib

/-!
Verification of the scenario/combinatorial test-case generator.

The definitions below are a shallow embedding of the Python sources:
`src/generators/combinatorial_generator.py`, `src/generators/field_detector.py`,
`src/generators/scenario_generator.py` and the request/response models of
`src/models.py`.  Python strings are Lean `String`s (lists of characters),
Python dicts (which preserve insertion order) are association lists, Python's
unbounded integers are `Nat`.
-/

namespace STCG

/-! ## String helpers (Python string primitives used by the sources) -/

/-- Python `str.lower()` (ASCII case folding, which covers all strings the
sources manipulate). -/
def strLower (s : String) : String := ⟨s.data.map Char.toLower⟩

/-- Python `str.upper()`. -/
def strUpper (s : String) : String := ⟨s.data.map Char.toUpper⟩

/-- Python `str.strip()`: remove leading and trailing whitespace. -/
def strTrim (s : String) : String :=
  ⟨((s.data.dropWhile Char.isWhitespace).reverse.dropWhile Char.isWhitespace).reverse⟩

/-- Python `s.replace("-", " ")` (single-character replacement). -/
def replaceDashSpace (s : String) : String :=
  ⟨s.data.map (fun c => if c = '-' then ' ' else c)⟩

/-- Python `s.replace(" ", "_")` (single-character replacement). -/
def replaceSpaceUnderscore (s : String) : String :=
  ⟨s.data.map (fun c => if c = ' ' then '_' else c)⟩

/-- Python slicing `s[:n]` on a string. -/
def strTakeChars (n : Nat) (s : String) : String := ⟨s.data.take n⟩

/-- Does `p` occur as a prefix of `l`? -/
def isPrefixList : List Char → List Char → Bool
  | [], _ => true
  | _ :: _, [] => false
  | a :: as, b :: bs => a = b && isPrefixList as bs

/-- Does `n` occur as a contiguous sublist of `h`?  (Python `n in h` on strings.) -/
def isInfixList (n : List Char) : List Char → Bool
  | [] => isPrefixList n []
  | b :: bs => isPrefixList n (b :: bs) || isInfixList n bs

/-- Python `needle in hay` for strings. -/
def strContains (hay needle : String) : Bool := isInfixList needle.data hay.data

/-- Python `hay.startswith(needle)`. -/
def strStartsWith (hay needle : String) : Bool := isPrefixList needle.data hay.data

/-- Python `f"{n:04d}"` for natural numbers. -/
def pad4 (n : Nat) : String :=
  let s := Nat.repr n
  ⟨List.replicate (4 - s.data.length) '0' ++ s.data⟩

/-- Python `str.capitalize()`: first character upper-cased, the rest lower-cased. -/
def strCapitalize (s : String) : String :=
  match s.data with
  | [] => ⟨[]⟩
  | c :: cs => ⟨Char.toUpper c :: cs.map Char.toLower⟩

/-- `f i x0, f (i+1) x1, ...`: Python `enumerate(xs, start=i)` consumed by a loop body `f`. -/
def numbered {α β : Type} (f : Nat → α → β) : Nat → List α → List β
  | _, [] => []
  | i, x :: xs => f i x :: numbered f (i + 1) xs

/-! ## Data model (`src/models.py`)

`platform` is kept as a `String`; the Pydantic `Literal` constraint appears as a
hypothesis where a claim needs it.  `Optional[List[str]]` becomes `Option (List String)`. -/

/-- `models.CombinationRequest`. -/
structure CombinationRequest where
  scenario : String
  platform : String
  text_fields : Option (List String)
  binary_fields : Option (List String)
  max_cases : Nat
deriving Repr, DecidableEq

/-- `models.CombinationCase`.  The Python `Dict[str, str]` preserves insertion
order, so it is an association list here. -/
structure CombinationCase where
  id : String
  category : List String
  combination : List (String × String)
  steps : List String
  expected_result : String
  markdown : String
deriving Repr, DecidableEq

/-- `models.CombinationResponse`. -/
structure CombinationResponse where
  scenario : String
  platform : String
  text_fields : List String
  binary_fields : List String
  total_combinations : Nat
  returned_count : Nat
  page : Nat
  page_size : Nat
  pages_total : Nat
  cases : List CombinationCase
  combined_markdown : String
deriving Repr, DecidableEq

/-- `models.ScenarioRequest`. -/
structure ScenarioRequest where
  scenario : String
  platform : String
  num_cases : Nat
deriving Repr, DecidableEq

/-- `models.TestCase`. -/
structure TestCase where
  id : String
  title : String
  preconditions : List String
  steps : List String
  expected_result : String
  priority : String
  tags : List String
deriving Repr, DecidableEq

/-! ## Field detector (`src/generators/field_detector.py`) -/

/-- `field_detector.detect_fields_for_scenario`.  Each branch mirrors one
`if` of the source, with Python's `and`-binds-tighter-than-`or` precedence
made explicit on the `ecu`/`can` and `vehicle integration` branches. -/
def detect_fields_for_scenario (scenario : String) : List String × List String :=
  let s := strLower (strTrim scenario)
  if strContains s "login" || strContains (replaceDashSpace s) "sign in" || strContains s "authenticate" then
    (["username", "password", "otp"], ["remember_me", "show_password"])
  else if strContains s "logout" || strContains (replaceDashSpace s) "sign out" then
    (["session_id"], ["is_network_connected"])
  else if strContains s "checkout" || strContains s "payment" || strContains s "purchase" then
    (["shipping_address", "zipcode", "card_number", "cvv"], ["save_address", "accept_terms"])
  else if strContains s "registration" || strContains (replaceDashSpace s) "sign up" || strContains s "signup" then
    (["full_name", "email", "password", "confirm_password"], ["accept_terms", "subscribe_newsletter"])
  else if strContains s "reset password" || strContains s "forgot password" || strContains s "password_reset" then
    (["email", "otp", "new_password"], ["remember_device"])
  else if strContains s "add to cart" || strContains (replaceDashSpace s) "add_to_cart" then
    (["product_id", "quantity"], ["is_logged_in"])
  else if strContains s "api" || strContains s "endpoint" || strContains s "request" then
    (["payload", "auth_token"], ["is_authenticated"])
  else if strContains s "ecu" || strContains s "firmware" || strContains s "diagnostic" ||
      (strContains s "can" && !strContains s "door") then
    (["request_id", "checksum", "ecu_id"], ["is_vehicle_running", "is_ignition_on"])
  else if strContains s "hmi" || strContains s "ui" || strContains s "user interface" then
    (["screen_id", "language", "theme", "brightness_level"], ["is_touch_enabled", "is_night_mode"])
  else if strContains s "audio" && (strContains s "routing" || strContains s "source" || strContains s "output") then
    (["audio_source", "output_target", "volume_level", "balance_setting"],
     ["is_nav_prompt_active", "is_phone_call_active"])
  else if strContains s "bluetooth" || strContains s "bt " || strStartsWith s "bt " then
    (["phone_bucket", "bt_profile", "reconnect_trigger", "power_state", "hu_state"],
     ["is_device_paired_before", "is_auto_reconnect_enabled"])
  else if strContains s "wifi" || strContains s "wi-fi" || strContains s "hotspot" then
    (["ssid", "wifi_password", "signal_strength", "client_profile"],
     ["is_hotspot_enabled", "is_client_mode_enabled"])
  else if strContains s "navigation" || strContains s "nav " || strContains s "gnss" || strContains s "route" then
    (["start_location", "destination", "route_type", "traffic_condition"],
     ["is_gps_locked", "is_online_services_available"])
  else if strContains s "vehicle integration" ||
      ((strContains s "can" || strContains s "lin") && !strContains s "door") then
    (["signal_name", "signal_value", "bus_load"], ["is_ignition_on", "is_vehicle_moving"])
  else if strContains s "ota" || strContains s "over-the-air" || strContains s "software update" then
    (["package_version", "package_size", "current_sw_version"], ["is_wifi_connected", "is_battery_ok"])
  else if strContains s "performance" || strContains s "latency" || strContains s "response time" then
    (["operation_type", "data_volume", "concurrent_sessions"], ["is_logging_enabled", "is_debug_mode"])
  else if strContains s "security" || strContains s "access control" || strContains s "authorization" then
    (["user_role", "auth_method", "resource_name"], ["is_mfa_enabled", "is_account_locked"])
  else if strContains s "robustness" || strContains s "power cycle" || strContains s "fault" || strContains s "stress" then
    (["fault_type", "recovery_attempts", "test_duration"], ["is_network_available", "is_backup_path_available"])
  else if strContains s "door warning" || (strContains s "door" && strContains s "warning") then
    (["door_signal", "vehicle_speed", "voltage_profile"], ["is_ignition_on", "cluster_active"])
  else
    ([], [])

/-! ## Combinatorial generator (`src/generators/combinatorial_generator.py`) -/

def TEXT_STATES : List String := ["Valid", "Invalid", "Empty"]

def BINARY_STATES : List String := ["Checked", "Unchecked"]

/-- `_compute_total_combinations`. -/
def compute_total_combinations (num_text_fields num_binary_fields : Nat) : Nat :=
  3 ^ num_text_fields * 2 ^ num_binary_fields

/-- The local `text_states` of `_categorize_combination`:
`[state for field, state in combination.items() if state in TEXT_STATES]`. -/
def text_states_of (combination : List (String × String)) : List String :=
  (combination.map Prod.snd).filter (fun state => TEXT_STATES.contains state)

/-- `has_invalid = any(state == "Invalid" for state in text_states)`. -/
def has_invalid_of (combination : List (String × String)) : Bool :=
  (text_states_of combination).any (fun state => state == "Invalid")

/-- `has_empty = any(state == "Empty" for state in text_states)`. -/
def has_empty_of (combination : List (String × String)) : Bool :=
  (text_states_of combination).any (fun state => state == "Empty")

/-- `all_valid_text = text_states and all(state == "Valid" for state in text_states)`. -/
def all_valid_text_of (combination : List (String × String)) : Bool :=
  !(text_states_of combination).isEmpty && (text_states_of combination).all (fun state => state == "Valid")

/-- The guard `"login" in s or "auth" in s or "sign in" in s.replace("-", " ")`
of `_categorize_combination` (`s` already trimmed and lower-cased). -/
def is_security_scenario (s : String) : Bool :=
  strContains s "login" || strContains s "auth" || strContains (replaceDashSpace s) "sign in"

/-- One iteration of the `for field, state in combination.items()` loop of the
security rule of `_categorize_combination`: if the lower-cased field name is
sensitive and its state is `Invalid` or `Empty`, append `"Security"` unless
already present. -/
def security_step (acc : List String) (p : String × String) : List String :=
  if (["password", "otp", "token"].contains (strLower p.1) && ["Invalid", "Empty"].contains p.2) then
    if acc.contains "Security" then acc else acc ++ ["Security"]
  else acc

/-- The `for field, state in combination.items()` loop of the security rule of
`_categorize_combination`, appending `"Security"` at most once. -/
def security_fold (cats : List String) (combination : List (String × String)) : List String :=
  combination.foldl security_step cats

/-- `_categorize_combination`. -/
def categorize_combination (scenario : String) (combination : List (String × String)) : List String :=
  let s := strLower (strTrim scenario)
  let cats : List String := if all_valid_text_of combination then ["Positive"] else []
  let cats := if has_empty_of combination then cats ++ ["Negative", "Validation", "Edge"] else cats
  let cats := if has_invalid_of combination && !cats.contains "Negative" then cats ++ ["Negative"] else cats
  let cats :=
    if is_security_scenario s then
      let cats := security_fold cats combination
      if (text_states_of combination).count "Invalid" ≥ 2 && !cats.contains "Security" then
        cats ++ ["Security"]
      else cats
    else cats
  if cats.isEmpty then ["Positive"] else cats

/-- The platform-specific opening steps of `_build_steps_for_combination`. -/
def platform_opening (platform : String) : List String :=
  if platform = "web" then
    ["Launch a supported web browser (e.g. latest Chrome or Firefox).",
     "Navigate to the application's URL and ensure the page loads without errors."]
  else if platform = "mobile" then
    ["Launch the mobile application on a supported device/emulator.",
     "Ensure the app loads to the main screen without crashes."]
  else if platform = "api" then
    ["Prepare an API client (e.g. Postman, curl, or automated test).",
     "Ensure the target environment and endpoint are reachable."]
  else if platform = "desktop" then
    ["Launch the desktop application on a supported operating system.",
     "Ensure the application starts successfully without error dialogs."]
  else if platform = "automotive" then
    ["Ensure the test vehicle or HIL/SIL environment is powered on and in a safe state.",
     "Connect diagnostic/tools to the in-vehicle network or test bench as required."]
  else
    ["Open the system under test using the appropriate client or interface.",
     "Navigate to the relevant module for this scenario."]

/-- The per-field `if/elif` chain of `_build_steps_for_combination`; a state
matching no branch appends no step. -/
def field_step (scenario field state : String) : List String :=
  if state = "Valid" then
    ["Enter a valid value into '" ++ field ++ "' (e.g. a correctly formatted and allowed "
      ++ strLower field ++ ")."]
  else if state = "Invalid" then
    ["Enter an invalid or not allowed value into '" ++ field
      ++ "' (e.g. wrong format, out-of-range value, or disallowed characters)."]
  else if state = "Empty" then
    ["Leave the '" ++ field ++ "' field empty or do not provide this parameter in the request."]
  else if state = "Checked" then
    ["Ensure the '" ++ field ++ "' option is enabled/checked before executing the '"
      ++ scenario ++ "' operation."]
  else if state = "Unchecked" then
    ["Ensure the '" ++ field ++ "' option is disabled/unchecked before executing the '"
      ++ scenario ++ "' operation."]
  else []

/-- `_build_steps_for_combination`. -/
def build_steps_for_combination (req : CombinationRequest) (combination : List (String × String)) :
    List String :=
  let scenario := strTrim req.scenario
  let platform := req.platform
  platform_opening platform
    ++ ["Navigate to the part of the system where the '" ++ scenario
          ++ "' operation is performed (screen, API endpoint, or flow)."]
    ++ combination.flatMap (fun p => field_step scenario p.1 p.2)
    ++ ["Trigger the '" ++ scenario
          ++ "' operation (e.g. click the corresponding button, submit the form, or send the API request).",
        "Observe the system behaviour in the UI, logs, and/or API response, including status codes and returned data."]

/-- The success narrative of `_build_expected_result` (`s` the trimmed scenario). -/
def success_narrative (s : String) : String :=
  "The system successfully completes the '" ++ s
    ++ "' operation. The expected UI changes, data updates, and/or API responses are produced without errors. No validation or error messages are displayed, and the system state is consistent and correct."

/-- The rejection-with-validation-message narrative of `_build_expected_result`. -/
def validation_narrative : String :=
  "The system does not proceed with the main operation. Clear and descriptive validation messages are displayed or returned for all fields that are empty or invalid. No partial data is stored, no corrupted state is created, and any previously valid data remains unchanged."

/-- The security-rejection narrative of `_build_expected_result`. -/
def security_narrative : String :=
  "The system protects against unauthorized or suspicious usage of the scenario. Login or privileged operations are rejected, error messages remain generic (no sensitive information leakage), and no user session or privileged access is granted. Any relevant security/audit logs are created as per policy."

/-- The generic rejection narrative of `_build_expected_result`. -/
def negative_narrative : String :=
  "The system rejects the operation for this combination of inputs. Appropriate error or validation messages are displayed or returned, and the system remains stable without crashes or unhandled exceptions."

/-- The fallback narrative of `_build_expected_result` (`s` the trimmed scenario). -/
def fallback_narrative (s : String) : String :=
  "The system handles the '" ++ s
    ++ "' operation in accordance with the specification for this input combination, without compromising stability, data integrity, or security."

/-- `_build_expected_result`: Python's sequence of early-`return` `if`s is an
`else if` chain. -/
def build_expected_result (scenario : String) (categories : List String)
    (combination : List (String × String)) : String :=
  let s := strTrim scenario
  if categories.contains "Positive" && !categories.contains "Negative"
      && !categories.contains "Validation" then
    success_narrative s
  else if categories.contains "Validation" || categories.contains "Edge" then
    validation_narrative
  else if categories.contains "Security" then
    security_narrative
  else if categories.contains "Negative" then
    negative_narrative
  else
    fallback_narrative s

/-- `_build_markdown_for_case`.  The source file holds the literal bytes
`â€”` (a mojibake em-dash) in the title line; they are reproduced verbatim. -/
def build_markdown_for_case (case_id scenario : String) (categories : List String)
    (combination : List (String × String)) (steps : List String) (expected_result : String) :
    String :=
  let cat_str := if categories.isEmpty then "Unclassified" else String.intercalate ", " categories
  let lines : List String :=
    ["### " ++ case_id ++ " â€” " ++ strCapitalize scenario ++ " Combination Test",
     "**Category:** " ++ cat_str,
     "**Combination:**"]
    ++ combination.map (fun p => "- **" ++ p.1 ++ "**: " ++ p.2)
    ++ ["", "**Steps:**"]
    ++ numbered (fun idx step => Nat.repr idx ++ ". " ++ step) 1 steps
    ++ ["", "**Expected Result:**", "- " ++ expected_result, ""]
  String.intercalate "\n" lines

/-- Python truthiness for `list(req.text_fields) if req.text_fields else []`:
`None` and the empty list are falsy. -/
def opt_list (o : Option (List String)) : List String :=
  match o with
  | none => []
  | some l => if l.isEmpty then [] else l

/-- Lines 224–236 of `generate_combinations`: explicit fields, else detection,
else the `["input"]` default. -/
def resolve_fields (req : CombinationRequest) : List String × List String :=
  let text_fields := opt_list req.text_fields
  let binary_fields := opt_list req.binary_fields
  let tb :=
    if text_fields.isEmpty && binary_fields.isEmpty then
      detect_fields_for_scenario req.scenario
    else (text_fields, binary_fields)
  if tb.1.isEmpty && tb.2.isEmpty then (["input"], []) else tb

/-- `itertools.product(states, repeat=n)` as an ordered list: the first
position varies slowest, the last fastest. -/
def statePow (states : List String) : Nat → List (List String)
  | 0 => [[]]
  | n + 1 => states.flatMap (fun st => (statePow states n).map (fun rest => st :: rest))

/-- One `combination[field_name] = state` dict assignment: replace in place if
the key exists, else append (CPython dicts preserve insertion order). -/
def dict_insert (d : List (String × String)) (kv : String × String) : List (String × String) :=
  if d.any (fun p => p.1 == kv.1) then d.map (fun p => if p.1 == kv.1 then kv else p)
  else d ++ [kv]

/-- The two `for field_name, state in zip(...)` loops building `combination`. -/
def build_combination (text_fields binary_fields t b : List String) : List (String × String) :=
  (binary_fields.zip b).foldl dict_insert ((text_fields.zip t).foldl dict_insert [])

/-- The body of the innermost loop of `generate_combinations` for one emitted
pair `(text_states, binary_states)` with 1-based sequence number `counter`. -/
def build_case (req : CombinationRequest) (scenario prefixStr : String)
    (text_fields binary_fields t b : List String) (counter : Nat) : CombinationCase :=
  let combination := build_combination text_fields binary_fields t b
  let categories := categorize_combination scenario combination
  let steps := build_steps_for_combination req combination
  let expected_result := build_expected_result scenario categories combination
  let case_id := prefixStr ++ "-" ++ pad4 counter
  let markdown := build_markdown_for_case case_id scenario categories combination steps expected_result
  { id := case_id, category := categories, combination := combination, steps := steps,
    expected_result := expected_result, markdown := markdown }

/-- The inner `for binary_states in binary_state_products` loop: increments the
counter per enumerated pair and `break`s (emitting nothing) once it exceeds
`max_cases`.  Returns the final counter and the cases emitted. -/
def inner_loop (req : CombinationRequest) (scenario prefixStr : String)
    (text_fields binary_fields t : List String) :
    List (List String) → Nat → Nat × List CombinationCase
  | [], counter => (counter, [])
  | b :: rest, counter =>
    let counter := counter + 1
    if counter > req.max_cases then (counter, [])
    else
      let c := build_case req scenario prefixStr text_fields binary_fields t b counter
      let r := inner_loop req scenario prefixStr text_fields binary_fields t rest counter
      (r.1, c :: r.2)

/-- The outer `for text_states in text_state_products` loop with its trailing
`if counter > req.max_cases: break`. -/
def outer_loop (req : CombinationRequest) (scenario prefixStr : String)
    (text_fields binary_fields : List String) (bsp : List (List String)) :
    List (List String) → Nat → Nat × List CombinationCase
  | [], counter => (counter, [])
  | t :: rest, counter =>
    let r1 := inner_loop req scenario prefixStr text_fields binary_fields t bsp counter
    if r1.1 > req.max_cases then r1
    else
      let r2 := outer_loop req scenario prefixStr text_fields binary_fields bsp rest r1.1
      (r2.1, r1.2 ++ r2.2)

/-- Line 249 of `generate_combinations`:
`prefix = scenario.upper().replace(" ", "_")[:8] or "SCEN"`. -/
def make_combination_stem (scenario : String) : String :=
  let p := strTakeChars 8 (replaceSpaceUnderscore (strUpper scenario))
  if p.isEmpty then "SCEN" else p

/-- `generate_combinations`: the main entry point of
`src/generators/combinatorial_generator.py`. -/
def generate_combinations (req : CombinationRequest) : CombinationResponse :=
  let tb := resolve_fields req
  let text_fields := tb.1
  let binary_fields := tb.2
  let num_text := text_fields.length
  let num_binary := binary_fields.length
  let total_combinations := compute_total_combinations num_text num_binary
  let text_state_products := if num_text > 0 then statePow TEXT_STATES num_text else [[]]
  let binary_state_products := if num_binary > 0 then statePow BINARY_STATES num_binary else [[]]
  let scenario := strTrim req.scenario
  let prefixStr := make_combination_stem scenario
  let r := outer_loop req scenario prefixStr text_fields binary_fields
    binary_state_products text_state_products 0
  let cases := r.2
  let returned_count := cases.length
  { scenario := scenario
    platform := req.platform
    text_fields := text_fields
    binary_fields := binary_fields
    total_combinations := total_combinations
    returned_count := returned_count
    page := 1
    page_size := returned_count
    pages_total := 1
    cases := cases
    combined_markdown := String.intercalate "\n" (cases.map (fun c => c.markdown)) }

/-! ## Scenario generator (`src/generators/scenario_generator.py`) -/

/-- `scenario_generator._make_id_prefix`. -/
def make_id_prefix (scenario : String) : String :=
  let cleaned : List Char := (strUpper scenario).data.filter Char.isAlphanum
  let cleaned := if cleaned.isEmpty then "SCENARIO".data else cleaned
  ⟨cleaned.take 10⟩

/-- `scenario_generator.generate_scenario_tests`. -/
def generate_scenario_tests (request : ScenarioRequest) : List TestCase :=
  let scenario := strTrim request.scenario
  let platform := strLower (strTrim (if request.platform.isEmpty then "generic" else request.platform))
  let prefixStr := make_id_prefix scenario
  let tag_base := [platform]
  let tc1 : TestCase :=
    { id := prefixStr ++ "-001"
      title := scenario ++ " - happy path"
      preconditions :=
        ["System is available and responsive.",
         "All required preconditions for the scenario are fulfilled (data, configuration, permissions)."]
      steps :=
        ["Open the application or module where '" ++ scenario ++ "' is performed.",
         "Navigate to the screen or API endpoint responsible for '" ++ scenario ++ "'.",
         "Provide all required inputs with valid and typical data values.",
         "Trigger the main action to execute '" ++ scenario ++ "' (e.g. click button, call API).",
         "Wait for the system to process the request.",
         "Observe the UI, logs, or API response returned by the system."]
      expected_result :=
        "The system successfully completes '" ++ scenario
          ++ "' without errors. The expected UI changes, data updates, or API responses are visible, and logs show no critical errors."
      priority := "High"
      tags := ["happy_path"] ++ tag_base }
  let tc2 : TestCase :=
    { id := prefixStr ++ "-002"
      title := scenario ++ " - missing required data"
      preconditions := ["System is available."]
      steps :=
        ["Open the part of the application where '" ++ scenario ++ "' would normally be executed.",
         "Identify fields or parameters that are mandatory according to the specification.",
         "Leave one or more mandatory fields empty or unset.",
         "Attempt to execute '" ++ scenario ++ "' (e.g. click save/submit or call API).",
         "Observe any validation messages or error indicators."]
      expected_result :=
        "The system does not proceed with the operation. Clear validation messages are displayed for all missing required fields, indicating what needs to be provided. No data is saved and no partial or corrupted state is created."
      priority := "Medium"
      tags := ["validation", "negative"] ++ tag_base }
  let tc3 : TestCase :=
    { id := prefixStr ++ "-003"
      title := scenario ++ " - invalid data values"
      preconditions := ["System is available."]
      steps :=
        ["Open the screen or endpoint where '" ++ scenario ++ "' is performed.",
         "Identify input fields or parameters that have format or range constraints.",
         "Enter invalid, out-of-range, or syntactically incorrect values (e.g. wrong format, too long, negative where not allowed).",
         "Attempt to execute '" ++ scenario ++ "' with these invalid values.",
         "Observe the system response and any messages shown to the user or API client."]
      expected_result :=
        "The system rejects invalid data inputs. User-friendly error or validation messages are displayed, no data corruption occurs, and the system remains stable without crashes or unhandled exceptions."
      priority := "High"
      tags := ["negative", "data_validation"] ++ tag_base }
  let tc4 : TestCase :=
    { id := prefixStr ++ "-004"
      title := scenario ++ " - boundary and edge conditions"
      preconditions :=
        ["System is available.",
         "Boundary values and limits for inputs are known (e.g. min/max length, numeric ranges)."]
      steps :=
        ["Open the relevant part of the application for '" ++ scenario ++ "'.",
         "Identify fields or parameters with defined limits (length, range, list size, etc.).",
         "Test with minimum allowed values.",
         "Test with maximum allowed values.",
         "If applicable, test just-below-minimum and just-above-maximum values.",
         "Attempt to perform '" ++ scenario ++ "' with each of these values."]
      expected_result :=
        "The system correctly enforces boundary conditions. Values within the allowed range are accepted and processed correctly, while values outside the allowed range are rejected with appropriate messages. System stability is maintained throughout testing."
      priority := "Medium"
      tags := ["boundary", "edge_case"] ++ tag_base }
  [tc1, tc2, tc3, tc4]

/-! ## Specification-side definitions

These are written from the spec's words, independently of the loop code, and
are compared against the embedded source in the theorems below. -/

/-- The `k`-th tuple (0-based) of the Cartesian-product enumeration of `n`
fields over `states`, where the last field varies fastest and each field's
states appear in the order of `states`: field `i` holds the state of index
`k / |states| ^ (n - 1 - i) mod |states|`. -/
def nth_tuple (states : List String) (n k : Nat) : List String :=
  (List.range n).map (fun i => states.getD (k / states.length ^ (n - 1 - i) % states.length) "")

/-- The `k`-th (0-based) StateAssignment of the spec's enumeration order:
the Cartesian product of text-field states taken first, and for each text
combination the Cartesian product of binary-field states, keys in text-then-
binary declaration order. -/
def spec_assignment (text_fields binary_fields : List String) (k : Nat) :
    List (String × String) :=
  text_fields.zip (nth_tuple TEXT_STATES text_fields.length (k / 2 ^ binary_fields.length))
    ++ binary_fields.zip (nth_tuple BINARY_STATES binary_fields.length (k % 2 ^ binary_fields.length))

/-- The five expected-result narrative variants of §4.4. -/
inductive NarrativeVariant where
  | success
  | validationMessage
  | securityRejection
  | genericRejection
  | compliantHandling
deriving Repr, DecidableEq

/-- The spec's category-driven precedence for choosing the narrative variant
(§4.4): Positive present and neither Negative nor Validation present →
success; else Validation or Edge → validation message; else Security →
security rejection; else Negative → generic rejection; else compliant
handling. -/
def expected_result_variant_spec (categories : List String) : NarrativeVariant :=
  if categories.contains "Positive" && !categories.contains "Negative"
      && !categories.contains "Validation" then
    .success
  else if categories.contains "Validation" || categories.contains "Edge" then
    .validationMessage
  else if categories.contains "Security" then
    .securityRejection
  else if categories.contains "Negative" then
    .genericRejection
  else
    .compliantHandling

/-- The narrative text of each variant (for the given request scenario). -/
def render_variant (scenario : String) : NarrativeVariant → String
  | .success => success_narrative (strTrim scenario)
  | .validationMessage => validation_narrative
  | .securityRejection => security_narrative
  | .genericRejection => negative_narrative
  | .compliantHandling => fallback_narrative (strTrim scenario)

end STCG

/-! ## Enumeration and loop lemmas -/

namespace STCG

lemma numbered_length {α β : Type} (f : Nat → α → β) :
    ∀ (i : Nat) (l : List α), (numbered f i l).length = l.length := by
  intro i l
  induction l generalizing i with
  | nil => rfl
  | cons x xs ih => simp [numbered, ih]

lemma numbered_append {α β : Type} (f : Nat → α → β) :
    ∀ (l1 l2 : List α) (i : Nat),
      numbered f i (l1 ++ l2) = numbered f i l1 ++ numbered f (i + l1.length) l2 := by
  intro l1
  induction l1 with
  | nil => intro l2 i; simp [numbered]
  | cons x xs ih =>
    intro l2 i
    have harith : i + 1 + xs.length = i + (xs.length + 1) := by omega
    simp [numbered, ih l2 (i + 1), harith]

lemma numbered_map {α β γ : Type} (f : Nat → β → γ) (g : α → β) :
    ∀ (i : Nat) (l : List α),
      numbered f i (l.map g) = numbered (fun j x => f j (g x)) i l := by
  intro i l
  induction l generalizing i with
  | nil => rfl
  | cons x xs ih => simp [numbered, ih]

lemma numbered_getElem? {α β : Type} (f : Nat → α → β) :
    ∀ (l : List α) (i k : Nat), (numbered f i l)[k]? = l[k]?.map (f (i + k)) := by
  intro l
  induction l with
  | nil => intro i k; simp [numbered]
  | cons x xs ih =>
    intro i k
    cases k with
    | zero => simp [numbered]
    | succ k =>
      rw [numbered]
      rw [List.getElem?_cons_succ, List.getElem?_cons_succ, ih (i + 1) k]
      have : i + 1 + k = i + (k + 1) := by omega
      rw [this]

lemma inner_loop_fst (req : CombinationRequest) (scenario prefixStr : String)
    (tf bf t : List String) :
    ∀ (bl : List (List String)) (counter : Nat), counter ≤ req.max_cases →
      (inner_loop req scenario prefixStr tf bf t bl counter).1 =
        min (counter + bl.length) (req.max_cases + 1) := by
  intro bl
  induction bl with
  | nil =>
    intro counter h
    simp [inner_loop]
    omega
  | cons b rest ih =>
    intro counter h
    by_cases hc : counter + 1 > req.max_cases
    · simp [inner_loop, hc]
      omega
    · simp [inner_loop, hc, ih (counter + 1) (by omega)]
      omega

lemma inner_loop_snd (req : CombinationRequest) (scenario prefixStr : String)
    (tf bf t : List String) :
    ∀ (bl : List (List String)) (counter : Nat), counter ≤ req.max_cases →
      (inner_loop req scenario prefixStr tf bf t bl counter).2 =
        numbered (fun i b => build_case req scenario prefixStr tf bf t b i) (counter + 1)
          (bl.take (req.max_cases - counter)) := by
  intro bl
  induction bl with
  | nil =>
    intro counter h
    simp [inner_loop, numbered]
  | cons b rest ih =>
    intro counter h
    by_cases hc : counter + 1 > req.max_cases
    · have h0 : req.max_cases - counter = 0 := by omega
      simp [inner_loop, hc, h0, numbered]
    · have hmc : req.max_cases - counter = (req.max_cases - (counter + 1)) + 1 := by omega
      rw [hmc]
      simp [inner_loop, hc, ih (counter + 1) (by omega), numbered]

lemma outer_loop_fst (req : CombinationRequest) (scenario prefixStr : String)
    (tf bf : List String) (bsp : List (List String)) :
    ∀ (tsp : List (List String)) (counter : Nat), counter ≤ req.max_cases →
      (outer_loop req scenario prefixStr tf bf bsp tsp counter).1 =
        min (counter + tsp.length * bsp.length) (req.max_cases + 1) := by
  intro tsp
  induction tsp with
  | nil =>
    intro counter h
    simp [outer_loop]
    omega
  | cons t rest ih =>
    intro counter h
    have hfst := inner_loop_fst req scenario prefixStr tf bf t bsp counter h
    have hmul : (t :: rest).length * bsp.length = rest.length * bsp.length + bsp.length := by
      simp [Nat.succ_mul]
    by_cases hcb : counter + bsp.length > req.max_cases
    · have hcond : (inner_loop req scenario prefixStr tf bf t bsp counter).1 > req.max_cases := by
        rw [hfst]; omega
      simp only [outer_loop]
      rw [if_pos hcond, hfst, hmul]
      omega
    · have hcond : ¬ (inner_loop req scenario prefixStr tf bf t bsp counter).1 > req.max_cases := by
        rw [hfst]; omega
      have hval : (inner_loop req scenario prefixStr tf bf t bsp counter).1 =
          counter + bsp.length := by
        rw [hfst]; omega
      simp only [outer_loop]
      rw [if_neg hcond, hval, ih (counter + bsp.length) (by omega), hmul]
      omega

lemma outer_loop_snd (req : CombinationRequest) (scenario prefixStr : String)
    (tf bf : List String) (bsp : List (List String)) :
    ∀ (tsp : List (List String)) (counter : Nat), counter ≤ req.max_cases →
      (outer_loop req scenario prefixStr tf bf bsp tsp counter).2 =
        numbered (fun i tb => build_case req scenario prefixStr tf bf tb.1 tb.2 i) (counter + 1)
          ((tsp.flatMap (fun t => bsp.map (fun b => (t, b)))).take (req.max_cases - counter)) := by
  intro tsp
  induction tsp with
  | nil =>
    intro counter h
    simp [outer_loop, numbered]
  | cons t rest ih =>
    intro counter h
    have hfst := inner_loop_fst req scenario prefixStr tf bf t bsp counter h
    have hsnd := inner_loop_snd req scenario prefixStr tf bf t bsp counter h
    rw [List.flatMap_cons, List.take_append_eq_append_take, List.length_map]
    by_cases hcb : counter + bsp.length > req.max_cases
    · have hcond : (inner_loop req scenario prefixStr tf bf t bsp counter).1 > req.max_cases := by
        rw [hfst]; omega
      have htail : req.max_cases - counter - bsp.length = 0 := by omega
      simp only [outer_loop]
      rw [if_pos hcond, hsnd, htail, List.take_zero, List.append_nil]
      rw [← List.map_take, numbered_map]
    · have hcond : ¬ (inner_loop req scenario prefixStr tf bf t bsp counter).1 > req.max_cases := by
        rw [hfst]; omega
      have hval : (inner_loop req scenario prefixStr tf bf t bsp counter).1 =
          counter + bsp.length := by
        rw [hfst]; omega
      have htake : (bsp.map (fun b => (t, b))).take (req.max_cases - counter) =
          bsp.map (fun b => (t, b)) :=
        List.take_of_length_le (by rw [List.length_map]; omega)
      have htake2 : bsp.take (req.max_cases - counter) = bsp :=
        List.take_of_length_le (by omega)
      simp only [outer_loop]
      rw [if_neg hcond, hval, ih (counter + bsp.length) (by omega)]
      rw [hsnd, htake2, htake, numbered_append, List.length_map]
      have harith : req.max_cases - counter - bsp.length = req.max_cases - (counter + bsp.length) := by
        omega
      have harith2 : counter + 1 + bsp.length = counter + bsp.length + 1 := by omega
      rw [harith, harith2]
      rw [← numbered_map (fun i tb => build_case req scenario prefixStr tf bf tb.1 tb.2 i)
        (fun b => (t, b))]

end STCG

/-! ## Mixed-radix characterization of the product enumeration -/

namespace STCG

lemma state_products_eq (states : List String) (n : Nat) :
    (if n > 0 then statePow states n else [[]]) = statePow states n := by
  cases n with
  | zero => simp [statePow]
  | succ n => simp

lemma statePow_length (states : List String) : ∀ n, (statePow states n).length = states.length ^ n := by
  intro n
  induction n with
  | zero => rfl
  | succ n ih =>
    rw [statePow, List.length_flatMap]
    have hmap : List.map (List.length ∘ fun st => (statePow states n).map (fun rest => st :: rest))
        states = List.map (fun _ => states.length ^ n) states := by
      apply List.map_congr_left
      intro st _
      simp [ih]
    rw [hmap, List.map_const', List.sum_replicate, smul_eq_mul, pow_succ]
    ring

lemma flatMap_getElem?_uniform {α β : Type} (f : α → List β) (m : Nat) (hm : 0 < m) :
    ∀ (l : List α), (∀ a ∈ l, (f a).length = m) →
      ∀ k, (l.flatMap f)[k]? = l[k / m]?.bind (fun a => (f a)[k % m]?) := by
  intro l
  induction l with
  | nil => intro _ k; simp
  | cons a rest ih =>
    intro hf k
    have hlen : (f a).length = m := hf a (by simp)
    rw [List.flatMap_cons, List.getElem?_append, hlen]
    by_cases hk : k < m
    · rw [if_pos hk]
      have h0 : k / m = 0 := Nat.div_eq_of_lt hk
      have h1 : k % m = k := Nat.mod_eq_of_lt hk
      simp [h0, h1]
    · rw [if_neg hk]
      have hge : m ≤ k := by omega
      rw [ih (fun b hb => hf b (by simp [hb])) (k - m)]
      have hdiv : k / m = (k - m) / m + 1 := Nat.div_eq_sub_div hm hge
      have hmod : k % m = (k - m) % m := Nat.mod_eq_sub_mod hge
      rw [hdiv, hmod, List.getElem?_cons_succ]

lemma nth_tuple_zero (states : List String) (k : Nat) : nth_tuple states 0 k = [] := rfl

lemma nth_tuple_length (states : List String) (n k : Nat) : (nth_tuple states n k).length = n := by
  simp [nth_tuple]

lemma digit_mod_pow (S k n j : Nat) (hj : j + 1 ≤ n) :
    k / S ^ j % S = k % S ^ n / S ^ j % S := by
  rw [Nat.div_mod_eq_mod_mul_div, Nat.div_mod_eq_mod_mul_div]
  congr 1
  rw [show S ^ j * S = S ^ (j + 1) from (pow_succ S j).symm]
  rw [Nat.mod_mod_of_dvd k (pow_dvd_pow S hj)]

lemma nth_tuple_succ (states : List String) (n k : Nat) :
    nth_tuple states (n + 1) k =
      states.getD (k / states.length ^ n % states.length) "" ::
        nth_tuple states n (k % states.length ^ n) := by
  unfold nth_tuple
  rw [List.range_succ_eq_map, List.map_cons, List.map_map]
  refine congrArg₂ List.cons rfl ?_
  apply List.map_congr_left
  intro i hi
  have hin : i < n := List.mem_range.mp hi
  simp only [Function.comp_apply, Nat.succ_eq_add_one]
  have e1 : n + 1 - 1 - (i + 1) = n - 1 - i := by omega
  rw [e1, digit_mod_pow states.length k n (n - 1 - i) (by omega)]

lemma statePow_getElem? (states : List String) :
    ∀ n k, k < states.length ^ n →
      (statePow states n)[k]? = some (nth_tuple states n k) := by
  intro n
  induction n with
  | zero =>
    intro k hk
    have h0 : k = 0 := by
      rw [pow_zero] at hk
      omega
    subst h0
    rfl
  | succ n ih =>
    intro k hk
    have hS : 0 < states.length := by
      rcases Nat.eq_zero_or_pos states.length with h | h
      · rw [h, zero_pow (by omega : n + 1 ≠ 0)] at hk
        omega
      · exact h
    have hSn : 0 < states.length ^ n := pow_pos hS n
    rw [statePow]
    rw [flatMap_getElem?_uniform _ (states.length ^ n) hSn _
      (fun a _ => by rw [List.length_map, statePow_length]) k]
    have hdivlt : k / states.length ^ n < states.length := by
      rw [Nat.div_lt_iff_lt_mul hSn]
      calc k < states.length ^ (n + 1) := hk
        _ = states.length * states.length ^ n := by rw [pow_succ]; ring
    have hhead : states[k / states.length ^ n]? =
        some (states.getD (k / states.length ^ n % states.length) "") := by
      rw [Nat.mod_eq_of_lt hdivlt, List.getElem?_eq_getElem hdivlt,
        List.getD_eq_getElem states "" hdivlt]
    rw [hhead]
    simp only [Option.some_bind]
    rw [List.getElem?_map, ih (k % states.length ^ n) (Nat.mod_lt k hSn)]
    rw [nth_tuple_succ]
    rfl

end STCG

/-! ## Assignment construction and response shape -/

namespace STCG

lemma flatMap_pairs_length (tsp bsp : List (List String)) :
    (tsp.flatMap (fun t => bsp.map (fun b => (t, b)))).length = tsp.length * bsp.length := by
  induction tsp with
  | nil => simp
  | cons t rest ih =>
    simp only [List.flatMap_cons, List.length_append, List.length_map, ih, List.length_cons]
    rw [Nat.succ_mul]
    omega

lemma dict_insert_fresh (d : List (String × String)) (kv : String × String)
    (h : ∀ q ∈ d, q.1 ≠ kv.1) : dict_insert d kv = d ++ [kv] := by
  unfold dict_insert
  have hany : d.any (fun p => p.1 == kv.1) = false := by
    rw [List.any_eq_false]
    intro p hp
    simp only [beq_iff_eq]
    exact h p hp
  rw [hany]
  simp

lemma foldl_dict_insert (l : List (String × String)) :
    ∀ d : List (String × String), (∀ p ∈ l, ∀ q ∈ d, q.1 ≠ p.1) → (l.map Prod.fst).Nodup →
      List.foldl dict_insert d l = d ++ l := by
  induction l with
  | nil => intro d _ _; simp
  | cons kv rest ih =>
    intro d hfresh hnd
    have hnd' : ((kv :: rest).map Prod.fst).Nodup := hnd
    simp only [List.map_cons, List.nodup_cons] at hnd'
    have hfresh2 : ∀ p ∈ rest, ∀ q ∈ d ++ [kv], q.1 ≠ p.1 := by
      intro p hp q hq
      rcases List.mem_append.mp hq with hq' | hq'
      · exact hfresh p (by simp [hp]) q hq'
      · have hqkv : q = kv := by simpa using hq'
        subst hqkv
        intro heq
        exact hnd'.1 (by rw [heq]; exact List.mem_map.mpr ⟨p, hp, rfl⟩)
    rw [List.foldl_cons, dict_insert_fresh d kv (fun q hq => hfresh kv (by simp) q hq),
      ih (d ++ [kv]) hfresh2 hnd'.2]
    simp

lemma build_combination_eq (tf bf t b : List String)
    (hnd : (tf ++ bf).Nodup) (ht : t.length = tf.length) (hb : b.length = bf.length) :
    build_combination tf bf t b = tf.zip t ++ bf.zip b := by
  obtain ⟨hndt, hndb, hdisj⟩ := List.nodup_append.mp hnd
  have hkeys_t : (tf.zip t).map Prod.fst = tf := List.map_fst_zip tf t (by omega)
  have hkeys_b : (bf.zip b).map Prod.fst = bf := List.map_fst_zip bf b (by omega)
  have hfresh : ∀ p ∈ bf.zip b, ∀ q ∈ tf.zip t, q.1 ≠ p.1 := by
    intro p hp q hq
    have hq1 : q.1 ∈ tf := by rw [← hkeys_t]; exact List.mem_map.mpr ⟨q, hq, rfl⟩
    have hp1 : p.1 ∈ bf := by rw [← hkeys_b]; exact List.mem_map.mpr ⟨p, hp, rfl⟩
    intro heq
    exact hdisj hq1 (by rw [heq]; exact hp1)
  unfold build_combination
  rw [foldl_dict_insert (tf.zip t) [] (by intro p _ q hq; cases hq)
      (by rw [hkeys_t]; exact hndt),
    List.nil_append,
    foldl_dict_insert (bf.zip b) (tf.zip t) hfresh (by rw [hkeys_b]; exact hndb)]

lemma map_numbered {α β γ : Type} (g : β → γ) (f : Nat → α → β) :
    ∀ (i : Nat) (l : List α), (numbered f i l).map g = numbered (fun j x => g (f j x)) i l := by
  intro i l
  induction l generalizing i with
  | nil => rfl
  | cons x xs ih => simp [numbered, ih]

lemma numbered_const {α β : Type} (h : α → β) :
    ∀ (i : Nat) (l : List α), numbered (fun _ x => h x) i l = l.map h := by
  intro i l
  induction l generalizing i with
  | nil => rfl
  | cons x xs ih => simp [numbered, ih]

lemma zip_replicate_self {α β : Type} (v : β) :
    ∀ l : List α, l.zip (List.replicate l.length v) = l.map (fun x => (x, v)) := by
  intro l
  induction l with
  | nil => rfl
  | cons x xs ih => simp [List.replicate_succ, ih]

lemma generate_combinations_cases (req : CombinationRequest) :
    (generate_combinations req).cases =
      numbered
        (fun i tb => build_case req (strTrim req.scenario) (make_combination_stem (strTrim req.scenario))
          (resolve_fields req).1 (resolve_fields req).2 tb.1 tb.2 i) 1
        (((statePow TEXT_STATES (resolve_fields req).1.length).flatMap
            (fun t => (statePow BINARY_STATES (resolve_fields req).2.length).map
              (fun b => (t, b)))).take req.max_cases) := by
  simp only [generate_combinations]
  rw [state_products_eq, state_products_eq]
  rw [outer_loop_snd req (strTrim req.scenario) (make_combination_stem (strTrim req.scenario))
    (resolve_fields req).1 (resolve_fields req).2
    (statePow BINARY_STATES (resolve_fields req).2.length)
    (statePow TEXT_STATES (resolve_fields req).1.length) 0 (Nat.zero_le _)]
  norm_num

lemma generate_combinations_cases_length (req : CombinationRequest) :
    (generate_combinations req).cases.length =
      min (3 ^ (resolve_fields req).1.length * 2 ^ (resolve_fields req).2.length)
        req.max_cases := by
  rw [generate_combinations_cases req, numbered_length, List.length_take,
    flatMap_pairs_length, statePow_length, statePow_length]
  norm_num [TEXT_STATES, BINARY_STATES]
  rw [inf_eq_min, Nat.min_comm]

end STCG

/-! ## Classifier lemmas -/

namespace STCG

lemma contains_iff {l : List String} {a : String} : l.contains a = true ↔ a ∈ l := by
  simp [List.contains_eq_any_beq, List.any_eq_true, eq_comm]

lemma text_states_append (l1 l2 : List (String × String)) :
    text_states_of (l1 ++ l2) = text_states_of l1 ++ text_states_of l2 := by
  simp [text_states_of, List.map_append, List.filter_append]

lemma binary_state_not_text {st : String} (h : st ∈ BINARY_STATES) :
    TEXT_STATES.contains st = false := by
  simp only [BINARY_STATES, List.mem_cons, List.mem_singleton] at h
  rcases h with h | h | h
  · subst h; decide
  · subst h; decide
  · cases h

lemma text_states_of_binary (bp : List (String × String))
    (hb : ∀ p ∈ bp, p.2 ∈ BINARY_STATES) : text_states_of bp = [] := by
  simp only [text_states_of, List.filter_eq_nil_iff]
  intro st hst
  obtain ⟨p, hp, rfl⟩ := List.mem_map.mp hst
  have hbp := hb p hp
  simp only [BINARY_STATES, List.mem_cons, List.mem_singleton] at hbp
  rcases hbp with h | h | h
  · rw [h]; decide
  · rw [h]; decide
  · cases h

lemma mem_text_states_of {comb : List (String × String)} {p : String × String}
    (hp : p ∈ comb) (hm : TEXT_STATES.contains p.2 = true) :
    p.2 ∈ text_states_of comb := by
  simp only [text_states_of, List.mem_filter]
  exact ⟨List.mem_map.mpr ⟨p, hp, rfl⟩, hm⟩

lemma security_fold_nil (acc : List String) : security_fold acc [] = acc := rfl

lemma security_fold_cons (acc : List String) (p : String × String)
    (rest : List (String × String)) :
    security_fold acc (p :: rest) = security_fold (security_step acc p) rest := rfl

lemma security_step_of_contains (acc : List String) (p : String × String)
    (h : acc.contains "Security" = true) : security_step acc p = acc := by
  unfold security_step
  rw [h]
  simp

lemma security_fold_of_contains :
    ∀ (comb : List (String × String)) (acc : List String),
      acc.contains "Security" = true → security_fold acc comb = acc := by
  intro comb
  induction comb with
  | nil => intro acc _; rfl
  | cons p rest ih =>
    intro acc h
    rw [security_fold_cons, security_step_of_contains acc p h]
    exact ih acc h

lemma security_step_no_trigger (acc : List String) (p : String × String)
    (h : (["Invalid", "Empty"] : List String).contains p.2 = false) :
    security_step acc p = acc := by
  unfold security_step
  rw [h, Bool.and_false]
  simp

lemma security_fold_no_trigger :
    ∀ (comb : List (String × String)),
      (∀ p ∈ comb, (["Invalid", "Empty"] : List String).contains p.2 = false) →
      ∀ acc : List String, security_fold acc comb = acc := by
  intro comb
  induction comb with
  | nil => intro _ acc; rfl
  | cons p rest ih =>
    intro h acc
    rw [security_fold_cons, security_step_no_trigger acc p (h p (by simp))]
    exact ih (fun q hq => h q (by simp [hq])) acc

lemma contains_append_security (acc : List String) :
    (acc ++ ["Security"]).contains "Security" = true :=
  contains_iff.mpr (by simp)

lemma security_fold_cases :
    ∀ (comb : List (String × String)) (acc : List String),
      security_fold acc comb = acc ∨
        (acc.contains "Security" = false ∧ security_fold acc comb = acc ++ ["Security"]) := by
  intro comb
  induction comb with
  | nil => intro acc; exact Or.inl rfl
  | cons p rest ih =>
    intro acc
    by_cases hg : (["password", "otp", "token"].contains (strLower p.1)
        && (["Invalid", "Empty"] : List String).contains p.2) = true
    · by_cases hc : acc.contains "Security" = true
      · left
        rw [security_fold_cons, security_step_of_contains acc p hc]
        exact security_fold_of_contains rest acc hc
      · have hc' : acc.contains "Security" = false := by
          revert hc; cases acc.contains "Security" <;> simp
        right
        refine ⟨hc', ?_⟩
        have hstep : security_step acc p = acc ++ ["Security"] := by
          unfold security_step
          rw [hg, hc']
          simp
        rw [security_fold_cons, hstep]
        exact security_fold_of_contains rest (acc ++ ["Security"]) (contains_append_security acc)
    · have hg' : (["password", "otp", "token"].contains (strLower p.1)
          && (["Invalid", "Empty"] : List String).contains p.2) = false := by
        revert hg
        cases (["password", "otp", "token"].contains (strLower p.1)
          && (["Invalid", "Empty"] : List String).contains p.2) <;> simp
      have hstep : security_step acc p = acc := by
        unfold security_step
        rw [hg']
        simp
      rw [security_fold_cons, hstep]
      exact ih acc

end STCG

namespace STCG

lemma all_valid_states {comb : List (String × String)} (h : all_valid_text_of comb = true) :
    ∀ st ∈ text_states_of comb, st = "Valid" := by
  have h2 := (Bool.and_eq_true _ _).mp h
  intro st hst
  have := List.all_eq_true.mp h2.2 st hst
  simpa using this

lemma all_valid_no_bad_state {comb : List (String × String)}
    (h : all_valid_text_of comb = true) :
    ∀ p ∈ comb, (["Invalid", "Empty"] : List String).contains p.2 = false := by
  intro p hp
  cases hc : (["Invalid", "Empty"] : List String).contains p.2 with
  | false => rfl
  | true =>
    exfalso
    have hmem := contains_iff.mp hc
    simp only [List.mem_cons, List.mem_singleton] at hmem
    have htext : TEXT_STATES.contains p.2 = true := by
      rcases hmem with h' | h' | h' <;> first | (rw [h']; decide) | cases h'
    have hval := all_valid_states h p.2 (mem_text_states_of hp htext)
    rcases hmem with h' | h' | h'
    · exact absurd (h'.symm.trans hval) (by decide)
    · exact absurd (h'.symm.trans hval) (by decide)
    · cases h'

lemma all_valid_flags {comb : List (String × String)} (h : all_valid_text_of comb = true) :
    has_empty_of comb = false ∧ has_invalid_of comb = false ∧
      (text_states_of comb).count "Invalid" = 0 := by
  refine ⟨?_, ?_, ?_⟩
  · cases he : has_empty_of comb with
    | false => rfl
    | true =>
      exfalso
      obtain ⟨st, hst, hbe⟩ := List.any_eq_true.mp he
      have : st = "Empty" := by simpa using hbe
      exact absurd (this.symm.trans (all_valid_states h st hst)) (by decide)
  · cases hi : has_invalid_of comb with
    | false => rfl
    | true =>
      exfalso
      obtain ⟨st, hst, hbe⟩ := List.any_eq_true.mp hi
      have : st = "Invalid" := by simpa using hbe
      exact absurd (this.symm.trans (all_valid_states h st hst)) (by decide)
  · rw [List.count_eq_zero]
    intro hmem
    exact absurd (all_valid_states h _ hmem) (by decide)

lemma no_rule_no_bad_state {comb : List (String × String)}
    (h2 : has_empty_of comb = false) (h3 : has_invalid_of comb = false) :
    ∀ p ∈ comb, (["Invalid", "Empty"] : List String).contains p.2 = false := by
  intro p hp
  cases hc : (["Invalid", "Empty"] : List String).contains p.2 with
  | false => rfl
  | true =>
    exfalso
    have hmem := contains_iff.mp hc
    simp only [List.mem_cons, List.mem_singleton] at hmem
    rcases hmem with h' | h' | h'
    · have htext : TEXT_STATES.contains p.2 = true := by rw [h']; decide
      have hts := mem_text_states_of hp htext
      have : has_invalid_of comb = true :=
        List.any_eq_true.mpr ⟨p.2, hts, by rw [h']; exact beq_self_eq_true _⟩
      rw [this] at h3
      exact Bool.noConfusion h3
    · have htext : TEXT_STATES.contains p.2 = true := by rw [h']; decide
      have hts := mem_text_states_of hp htext
      have : has_empty_of comb = true :=
        List.any_eq_true.mpr ⟨p.2, hts, by rw [h']; exact beq_self_eq_true _⟩
      rw [this] at h2
      exact Bool.noConfusion h2
    · cases h'

lemma count_invalid_zero_of_no_invalid {comb : List (String × String)}
    (h3 : has_invalid_of comb = false) :
    (text_states_of comb).count "Invalid" = 0 := by
  rw [List.count_eq_zero]
  intro hmem
  have : has_invalid_of comb = true :=
    List.any_eq_true.mpr ⟨"Invalid", hmem, beq_self_eq_true _⟩
  rw [this] at h3
  exact Bool.noConfusion h3

lemma categorize_all_valid (scenario : String) (comb : List (String × String))
    (h : all_valid_text_of comb = true) :
    categorize_combination scenario comb = ["Positive"] := by
  obtain ⟨he, hi, hcnt⟩ := all_valid_flags h
  have hnt := security_fold_no_trigger comb (all_valid_no_bad_state h)
  simp [categorize_combination, h, he, hi, hcnt, hnt]

lemma categorize_no_rule (scenario : String) (comb : List (String × String))
    (h1 : all_valid_text_of comb = false) (h2 : has_empty_of comb = false)
    (h3 : has_invalid_of comb = false) :
    categorize_combination scenario comb = ["Positive"] := by
  have hnt := security_fold_no_trigger comb (no_rule_no_bad_state h2 h3)
  have hcnt := count_invalid_zero_of_no_invalid h3
  simp [categorize_combination, h1, h2, h3, hcnt, hnt]

end STCG

namespace STCG

lemma categorize_characterization (scenario : String) (comb : List (String × String)) :
    categorize_combination scenario comb = ["Positive"] ∨
    categorize_combination scenario comb = ["Negative", "Validation", "Edge"] ∨
    categorize_combination scenario comb = ["Negative", "Validation", "Edge", "Security"] ∨
    categorize_combination scenario comb = ["Negative"] ∨
    categorize_combination scenario comb = ["Negative", "Security"] := by
  by_cases hv : all_valid_text_of comb = true
  · exact Or.inl (categorize_all_valid scenario comb hv)
  have hv' : all_valid_text_of comb = false := by
    revert hv; cases all_valid_text_of comb <;> simp
  have hcontneg : (["Negative", "Validation", "Edge"] : List String).contains "Negative" = true := by
    decide
  by_cases he : has_empty_of comb = true
  · by_cases hs : is_security_scenario (strLower (strTrim scenario)) = true
    · rcases security_fold_cases comb ["Negative", "Validation", "Edge"] with hf | ⟨hnc, hf⟩
      · by_cases hcnt : 2 ≤ (text_states_of comb).count "Invalid"
        · right; right; left
          simp [categorize_combination, hv', he, hs, hf, hcnt, hcontneg]
        · right; left
          simp [categorize_combination, hv', he, hs, hf, hcnt, hcontneg]
      · right; right; left
        have hfS : security_fold ["Negative", "Validation", "Edge"] comb =
            ["Negative", "Validation", "Edge", "Security"] := by simpa using hf
        simp [categorize_combination, hv', he, hs, hfS, hcontneg]
    · have hs' : is_security_scenario (strLower (strTrim scenario)) = false := by
        revert hs; cases is_security_scenario (strLower (strTrim scenario)) <;> simp
      right; left
      simp [categorize_combination, hv', he, hs', hcontneg]
  · have he' : has_empty_of comb = false := by
      revert he; cases has_empty_of comb <;> simp
    by_cases hi : has_invalid_of comb = true
    · by_cases hs : is_security_scenario (strLower (strTrim scenario)) = true
      · rcases security_fold_cases comb ["Negative"] with hf | ⟨hnc, hf⟩
        · by_cases hcnt : 2 ≤ (text_states_of comb).count "Invalid"
          · right; right; right; right
            simp [categorize_combination, hv', he', hi, hs, hf, hcnt]
          · right; right; right; left
            simp [categorize_combination, hv', he', hi, hs, hf, hcnt]
        · right; right; right; right
          have hfS : security_fold ["Negative"] comb = ["Negative", "Security"] := by
            simpa using hf
          simp [categorize_combination, hv', he', hi, hs, hfS]
      · have hs' : is_security_scenario (strLower (strTrim scenario)) = false := by
          revert hs; cases is_security_scenario (strLower (strTrim scenario)) <;> simp
        right; right; right; left
        simp [categorize_combination, hv', he', hi, hs']
    · have hi' : has_invalid_of comb = false := by
        revert hi; cases has_invalid_of comb <;> simp
      exact Or.inl (categorize_no_rule scenario comb hv' he' hi')

lemma categorize_append_binary (scenario : String) (tp bp : List (String × String))
    (hb : ∀ p ∈ bp, p.2 ∈ BINARY_STATES) :
    categorize_combination scenario (tp ++ bp) = categorize_combination scenario tp := by
  have hts : text_states_of (tp ++ bp) = text_states_of tp := by
    rw [text_states_append, text_states_of_binary bp hb, List.append_nil]
  have hfold : ∀ acc : List String, security_fold acc (tp ++ bp) = security_fold acc tp := by
    intro acc
    unfold security_fold
    rw [List.foldl_append]
    exact security_fold_no_trigger bp
      (fun p hp => by
        have hbp := hb p hp
        simp only [BINARY_STATES, List.mem_cons, List.mem_singleton] at hbp
        rcases hbp with h | h | h
        · rw [h]; decide
        · rw [h]; decide
        · cases h)
      _
  simp only [categorize_combination, has_empty_of, has_invalid_of, all_valid_text_of, hts, hfold]

end STCG

namespace STCG

lemma categorize_ne_nil (scenario : String) (comb : List (String × String)) :
    categorize_combination scenario comb ≠ [] := by
  rcases categorize_characterization scenario comb with h | h | h | h | h <;> rw [h] <;> decide

lemma build_case_combination (req : CombinationRequest) (scenario prefixStr : String)
    (tf bf t b : List String) (i : Nat) :
    (build_case req scenario prefixStr tf bf t b i).combination =
      build_combination tf bf t b := rfl

lemma build_case_category (req : CombinationRequest) (scenario prefixStr : String)
    (tf bf t b : List String) (i : Nat) :
    (build_case req scenario prefixStr tf bf t b i).category =
      categorize_combination scenario (build_combination tf bf t b) := rfl

lemma numbered_combination (req : CombinationRequest) (scenario prefixStr : String)
    (tf bf : List String) :
    ∀ (i : Nat) (l : List (List String × List String)),
      (numbered (fun i tb => build_case req scenario prefixStr tf bf tb.1 tb.2 i) i l).map
          (fun c => c.combination) =
        l.map (fun tb => build_combination tf bf tb.1 tb.2) := by
  intro i l
  induction l generalizing i with
  | nil => rfl
  | cons x xs ih => simp [numbered, ih, build_case_combination]

lemma nth_tuple_zero_k (states : List String) (n : Nat) :
    nth_tuple states n 0 = List.replicate n (states.getD 0 "") := by
  simp only [nth_tuple, Nat.zero_div, Nat.zero_mod]
  rw [List.map_const', List.length_range]

lemma spec_assignment_zero (tf bf : List String) :
    spec_assignment tf bf 0 =
      tf.map (fun f => (f, "Valid")) ++ bf.map (fun f => (f, "Checked")) := by
  unfold spec_assignment
  rw [Nat.zero_div, Nat.zero_mod, nth_tuple_zero_k, nth_tuple_zero_k]
  rw [show (TEXT_STATES.getD 0 "") = "Valid" from rfl,
    show (BINARY_STATES.getD 0 "") = "Checked" from rfl]
  rw [zip_replicate_self, zip_replicate_self]

lemma cases_combination_at (req : CombinationRequest)
    (hnd : ((resolve_fields req).1 ++ (resolve_fields req).2).Nodup)
    (k : Nat)
    (hk : k < min (3 ^ (resolve_fields req).1.length * 2 ^ (resolve_fields req).2.length)
      req.max_cases) :
    ((generate_combinations req).cases[k]?).map (fun c => c.combination) =
      some (spec_assignment (resolve_fields req).1 (resolve_fields req).2 k) := by
  have hBpos : 0 < 2 ^ (resolve_fields req).2.length := pow_pos (by norm_num) _
  have hkmax : k < req.max_cases := by omega
  have hktot : k < 3 ^ (resolve_fields req).1.length * 2 ^ (resolve_fields req).2.length := by
    omega
  rw [generate_combinations_cases req, numbered_getElem?, List.getElem?_take, if_pos hkmax]
  rw [flatMap_getElem?_uniform
    (fun t => (statePow BINARY_STATES (resolve_fields req).2.length).map (fun b => (t, b)))
    (2 ^ (resolve_fields req).2.length) hBpos
    (statePow TEXT_STATES (resolve_fields req).1.length)
    (fun a _ => by
      rw [List.length_map, statePow_length]
      norm_num [BINARY_STATES]) k]
  have hdivlt : k / 2 ^ (resolve_fields req).2.length < 3 ^ (resolve_fields req).1.length := by
    rw [Nat.div_lt_iff_lt_mul hBpos]
    exact hktot
  rw [statePow_getElem? TEXT_STATES (resolve_fields req).1.length _ hdivlt]
  simp only [Option.some_bind, List.getElem?_map]
  rw [statePow_getElem? BINARY_STATES (resolve_fields req).2.length
    (k % 2 ^ (resolve_fields req).2.length) (Nat.mod_lt _ hBpos)]
  simp only [Option.map_some']
  refine congrArg some ?_
  rw [build_case_combination]
  rw [build_combination_eq _ _ _ _ hnd (nth_tuple_length _ _ _) (nth_tuple_length _ _ _)]
  rfl

end STCG

/-! ## Concrete requests used as witnesses -/

namespace STCG

/-- The request of the spec's "login" worked example (§8): scenario "login",
no explicit fields, max_cases 100. -/
def login_request : CombinationRequest :=
  { scenario := "login"
    platform := "web"
    text_fields := none
    binary_fields := none
    max_cases := 100 }

/-- A "logout" request used as a concrete witness input. -/
def logout_request : CombinationRequest :=
  { scenario := "logout"
    platform := "web"
    text_fields := none
    binary_fields := none
    max_cases := 100 }

/-- The spec's unmatched-keyword example: scenario "xyzzy operation", no
explicit fields, default max_cases 200. -/
def xyzzy_request : CombinationRequest :=
  { scenario := "xyzzy operation"
    platform := "web"
    text_fields := none
    binary_fields := none
    max_cases := 200 }

end STCG

/-! ## Claim theorems -/

namespace STCG

/-- Claim C1: for every CombinationRequest (scenario of length ≥ 3, max_cases in
1..1000), `generate_combinations` returns a response whose `returned_count`
equals `min(total_combinations, max_cases)`, whose `cases` list has exactly that
length, and whose `returned_count` equals `total_combinations` whenever
`max_cases ≥ total_combinations`. -/
theorem claim_C1 (req : CombinationRequest) (h1 : 3 ≤ req.scenario.length)
    (h2 : 1 ≤ req.max_cases) (h3 : req.max_cases ≤ 1000) :
    (generate_combinations req).returned_count =
      min (generate_combinations req).total_combinations req.max_cases ∧
    (generate_combinations req).cases.length = (generate_combinations req).returned_count ∧
    ((generate_combinations req).total_combinations ≤ req.max_cases →
      (generate_combinations req).returned_count =
        (generate_combinations req).total_combinations) := by
  have hret : (generate_combinations req).returned_count =
      (generate_combinations req).cases.length := rfl
  have hlen := generate_combinations_cases_length req
  have htoteq : (generate_combinations req).total_combinations =
      3 ^ (resolve_fields req).1.length * 2 ^ (resolve_fields req).2.length := rfl
  refine ⟨?_, rfl, ?_⟩
  · rw [hret, hlen, htoteq]
  · intro hle
    rw [hret, hlen]
    rw [htoteq] at hle ⊢
    omega

/-- Witness for C1 at the "logout" request (total = 3 · 2 = 6 ≤ 100). -/
theorem claim_C1_witness :
    (3 ≤ ("logout" : String).length ∧ 1 ≤ 100 ∧ 100 ≤ 1000) ∧
    ((generate_combinations
        logout_request).returned_count =
      min (generate_combinations
        logout_request).total_combinations 100 ∧
    (generate_combinations
        logout_request).cases.length =
      (generate_combinations
        logout_request).returned_count ∧
    ((generate_combinations
        logout_request).total_combinations ≤ 100 →
      (generate_combinations
        logout_request).returned_count =
        (generate_combinations
        logout_request).total_combinations)) :=
  ⟨⟨by decide, by decide, by decide⟩,
    claim_C1 logout_request (by decide) (by decide) (by decide)⟩

/-- Claim C2: the reported `total_combinations` is exactly `3^t * 2^b` for the
resolved field model (t text fields, b binary fields), computed with exact
`Nat` arithmetic and independent of the `max_cases` cap. -/
theorem claim_C2 (req : CombinationRequest) :
    (generate_combinations req).total_combinations =
      compute_total_combinations (resolve_fields req).1.length (resolve_fields req).2.length ∧
    (generate_combinations req).total_combinations =
      3 ^ (resolve_fields req).1.length * 2 ^ (resolve_fields req).2.length ∧
    ∀ m : Nat, (generate_combinations { req with max_cases := m }).total_combinations =
      (generate_combinations req).total_combinations :=
  ⟨rfl, rfl, fun _ => rfl⟩

/-- Claim C3: the emitted assignments follow the spec's deterministic order
(`spec_assignment`: Cartesian product of text states first, Valid/Invalid/Empty
per field with later fields varying fastest, then for each text combination the
binary states Checked/Unchecked); the first assignment maps every text field to
Valid and every binary field to Checked, and keys appear in text-then-binary
declaration order. -/
theorem claim_C3 (req : CombinationRequest)
    (hnd : ((resolve_fields req).1 ++ (resolve_fields req).2).Nodup) :
    (∀ k, k < min (generate_combinations req).total_combinations req.max_cases →
        ((generate_combinations req).cases[k]?).map (fun c => c.combination) =
          some (spec_assignment (resolve_fields req).1 (resolve_fields req).2 k)) ∧
    (1 ≤ req.max_cases →
        ((generate_combinations req).cases.head?).map (fun c => c.combination) =
          some ((resolve_fields req).1.map (fun f => (f, "Valid")) ++
            (resolve_fields req).2.map (fun f => (f, "Checked")))) ∧
    (∀ c ∈ (generate_combinations req).cases,
        c.combination.map Prod.fst = (resolve_fields req).1 ++ (resolve_fields req).2) := by
  have htoteq : (generate_combinations req).total_combinations =
      3 ^ (resolve_fields req).1.length * 2 ^ (resolve_fields req).2.length := rfl
  refine ⟨?_, ?_, ?_⟩
  · intro k hk
    exact cases_combination_at req hnd k (by rw [htoteq] at hk; exact hk)
  · intro hmax
    have hpos : 0 < min (generate_combinations req).total_combinations req.max_cases := by
      rw [htoteq]
      have htp : 0 < 3 ^ (resolve_fields req).1.length := pow_pos (by norm_num) _
      have hbp : 0 < 2 ^ (resolve_fields req).2.length := pow_pos (by norm_num) _
      have := Nat.mul_pos htp hbp
      omega
    rw [List.head?_eq_getElem?, cases_combination_at req hnd 0 (by rw [htoteq] at hpos; omega),
      spec_assignment_zero]
  · intro c hc
    obtain ⟨k, hklen, hkeq⟩ := List.mem_iff_getElem.mp hc
    have hklen' : k < min (3 ^ (resolve_fields req).1.length * 2 ^ (resolve_fields req).2.length)
        req.max_cases := by
      rw [generate_combinations_cases_length] at hklen
      exact hklen
    have hat := cases_combination_at req hnd k hklen'
    rw [List.getElem?_eq_getElem hklen, hkeq] at hat
    have hcomb : c.combination =
        spec_assignment (resolve_fields req).1 (resolve_fields req).2 k := by
      simpa using hat
    rw [hcomb]
    unfold spec_assignment
    rw [List.map_append, List.map_fst_zip _ _ (by simp [nth_tuple_length]),
      List.map_fst_zip _ _ (by simp [nth_tuple_length])]

/-- Witness for C3 at the "login" request. -/
theorem claim_C3_witness :
    ((resolve_fields login_request).1 ++
      (resolve_fields login_request).2).Nodup ∧
    ((∀ k, k < min (generate_combinations login_request).total_combinations 100 →
        ((generate_combinations login_request).cases[k]?).map
            (fun c => c.combination) =
          some (spec_assignment
            (resolve_fields login_request).1
            (resolve_fields login_request).2 k)) ∧
    (1 ≤ 100 →
        ((generate_combinations login_request).cases.head?).map
            (fun c => c.combination) =
          some ((resolve_fields login_request).1.map (fun f => (f, "Valid")) ++
            (resolve_fields login_request).2.map (fun f => (f, "Checked")))) ∧
    (∀ c ∈ (generate_combinations login_request).cases,
        c.combination.map Prod.fst =
          (resolve_fields login_request).1 ++
          (resolve_fields login_request).2)) :=
  ⟨by decide,
    claim_C3 login_request (by decide)⟩

end STCG

namespace STCG

/-- Counterexample to claim C4 as stated: for the unmatched scenario
"xyzzy operation" with no explicit fields, the response's resolved field lists
are NOT both empty — the generator injects the default text field "input". -/
theorem claim_C4_counterexample :
    ¬ ((generate_combinations xyzzy_request).text_fields = [] ∧
       (generate_combinations xyzzy_request).binary_fields = []) := by
  intro h
  exact absurd h.1 (by decide)

/-- Claim C4 (amended): for a CombinationRequest with no explicit fields whose
scenario matches no keyword profile, the detector returns empty lists, the
generator injects the default text field "input" (no binary fields), every
combination assigns only "input" (the three text states in order, truncated at
max_cases), each case's category list is non-empty, and the first case is
categorized exactly ["Positive"]. -/
theorem claim_C4 (req : CombinationRequest)
    (htf : opt_list req.text_fields = []) (hbf : opt_list req.binary_fields = [])
    (hdet : detect_fields_for_scenario req.scenario = ([], []))
    (hmax : 1 ≤ req.max_cases) :
    (generate_combinations req).text_fields = ["input"] ∧
    (generate_combinations req).binary_fields = [] ∧
    (generate_combinations req).total_combinations = 3 ∧
    (generate_combinations req).cases.map (fun c => c.combination) =
      ([[("input", "Valid")], [("input", "Invalid")], [("input", "Empty")]].take
        req.max_cases) ∧
    (∀ c ∈ (generate_combinations req).cases, c.category ≠ []) ∧
    ((generate_combinations req).cases.head?).map (fun c => c.category) =
      some ["Positive"] := by
  have hres : resolve_fields req = (["input"], []) := by
    unfold resolve_fields
    rw [htf, hbf]
    simp [hdet]
  have hcases : (generate_combinations req).cases =
      numbered (fun i tb => build_case req (strTrim req.scenario)
        (make_combination_stem (strTrim req.scenario)) ["input"] [] tb.1 tb.2 i) 1
        (([((["Valid"] : List String), ([] : List String)), (["Invalid"], []),
          (["Empty"], [])]).take req.max_cases) := by
    rw [generate_combinations_cases req, hres]
    rfl
  refine ⟨?_, ?_, ?_, ?_, ?_, ?_⟩
  · rw [show (generate_combinations req).text_fields = (resolve_fields req).1 from rfl, hres]
  · rw [show (generate_combinations req).binary_fields = (resolve_fields req).2 from rfl, hres]
  · rw [show (generate_combinations req).total_combinations =
      3 ^ (resolve_fields req).1.length * 2 ^ (resolve_fields req).2.length from rfl, hres]
    rfl
  · rw [hcases, numbered_combination, List.map_take]
    rfl
  · intro c hc
    rw [hcases] at hc
    obtain ⟨k, hlt, heq⟩ := List.mem_iff_getElem.mp hc
    have h1 : (numbered (fun i tb => build_case req (strTrim req.scenario)
        (make_combination_stem (strTrim req.scenario)) ["input"] [] tb.1 tb.2 i) 1
        (([((["Valid"] : List String), ([] : List String)), (["Invalid"], []),
          (["Empty"], [])]).take req.max_cases))[k]? = some c := by
      rw [List.getElem?_eq_getElem hlt, heq]
    rw [numbered_getElem?] at h1
    cases hPk : (([((["Valid"] : List String), ([] : List String)), (["Invalid"], []),
        (["Empty"], [])]).take req.max_cases)[k]? with
    | none => rw [hPk] at h1; cases h1
    | some tb =>
      rw [hPk] at h1
      simp only [Option.map_some'] at h1
      have hcval := Option.some.inj h1
      rw [← hcval, build_case_category]
      exact categorize_ne_nil _ _
  · rw [hcases, List.head?_eq_getElem?, numbered_getElem?]
    have h0 : (([((["Valid"] : List String), ([] : List String)), (["Invalid"], []),
        (["Empty"], [])]).take req.max_cases)[0]? = some (["Valid"], []) := by
      rw [List.getElem?_take, if_pos (by omega)]
      rfl
    rw [h0]
    simp only [Option.map_some']
    refine congrArg some ?_
    rw [build_case_category]
    exact categorize_all_valid _ _ (by decide)

/-- Witness for C4 at the "xyzzy operation" request. -/
theorem claim_C4_witness :
    (opt_list xyzzy_request.text_fields = [] ∧ opt_list xyzzy_request.binary_fields = [] ∧
      detect_fields_for_scenario xyzzy_request.scenario = ([], []) ∧
      1 ≤ xyzzy_request.max_cases) ∧
    ((generate_combinations xyzzy_request).text_fields = ["input"] ∧
    (generate_combinations xyzzy_request).binary_fields = [] ∧
    (generate_combinations xyzzy_request).total_combinations = 3 ∧
    (generate_combinations xyzzy_request).cases.map (fun c => c.combination) =
      ([[("input", "Valid")], [("input", "Invalid")], [("input", "Empty")]].take
        xyzzy_request.max_cases) ∧
    (∀ c ∈ (generate_combinations xyzzy_request).cases, c.category ≠ []) ∧
    ((generate_combinations xyzzy_request).cases.head?).map (fun c => c.category) =
      some ["Positive"]) :=
  ⟨⟨rfl, rfl, by decide, by decide⟩,
    claim_C4 xyzzy_request rfl rfl (by decide) (by decide)⟩

/-- Claim C5: for scenario "login", no explicit fields and max_cases = 100, the
response resolves text_fields = [username, password, otp] and binary_fields =
[remember_me, show_password], reports total_combinations = 108 = 3³·2², and
returns 100 cases. -/
theorem claim_C5 :
    (generate_combinations login_request).text_fields = ["username", "password", "otp"] ∧
    (generate_combinations login_request).binary_fields = ["remember_me", "show_password"] ∧
    (generate_combinations login_request).total_combinations = 108 ∧
    (generate_combinations login_request).returned_count = 100 :=
  ⟨by decide, by decide, by decide, by decide⟩

/-- Claim C6: for scenario "login" and the assignment username:Valid,
password:Empty, otp:Valid, remember_me:Checked, show_password:Unchecked, the
classifier output contains Negative, Validation, Edge and Security, and does
not contain Positive. -/
theorem claim_C6 :
    "Negative" ∈ categorize_combination "login"
      [("username", "Valid"), ("password", "Empty"), ("otp", "Valid"),
       ("remember_me", "Checked"), ("show_password", "Unchecked")] ∧
    "Validation" ∈ categorize_combination "login"
      [("username", "Valid"), ("password", "Empty"), ("otp", "Valid"),
       ("remember_me", "Checked"), ("show_password", "Unchecked")] ∧
    "Edge" ∈ categorize_combination "login"
      [("username", "Valid"), ("password", "Empty"), ("otp", "Valid"),
       ("remember_me", "Checked"), ("show_password", "Unchecked")] ∧
    "Security" ∈ categorize_combination "login"
      [("username", "Valid"), ("password", "Empty"), ("otp", "Valid"),
       ("remember_me", "Checked"), ("show_password", "Unchecked")] ∧
    "Positive" ∉ categorize_combination "login"
      [("username", "Valid"), ("password", "Empty"), ("otp", "Valid"),
       ("remember_me", "Checked"), ("show_password", "Unchecked")] := by
  decide

/-- Claim C7: the expected-result text is selected from the category list by
exactly the spec's precedence (`expected_result_variant_spec`), one narrative
variant per call, totally over all category lists. -/
theorem claim_C7 (scenario : String) (categories : List String)
    (combination : List (String × String)) :
    build_expected_result scenario categories combination =
      render_variant scenario (expected_result_variant_spec categories) := by
  unfold build_expected_result expected_result_variant_spec
  split_ifs <;> rfl

/-- Claim C8: for every scenario and assignment the classifier returns a
non-empty, duplicate-free list of labels drawn from the five categories, and
returns exactly ["Positive"] when no rule fires. -/
theorem claim_C8 (scenario : String) (comb : List (String × String)) :
    categorize_combination scenario comb ≠ [] ∧
    (categorize_combination scenario comb).Nodup ∧
    (∀ c ∈ categorize_combination scenario comb,
        c ∈ (["Positive", "Negative", "Validation", "Edge", "Security"] : List String)) ∧
    (all_valid_text_of comb = false → has_empty_of comb = false →
      has_invalid_of comb = false → categorize_combination scenario comb = ["Positive"]) := by
  refine ⟨?_, ?_, ?_, categorize_no_rule scenario comb⟩ <;>
    rcases categorize_characterization scenario comb with h | h | h | h | h <;> rw [h] <;> decide

/-- Witness for C8 at a no-rule input (one binary-only field). -/
theorem claim_C8_witness :
    categorize_combination "pay" [("flag", "Checked")] ≠ [] ∧
    (categorize_combination "pay" [("flag", "Checked")]).Nodup ∧
    (∀ c ∈ categorize_combination "pay" [("flag", "Checked")],
        c ∈ (["Positive", "Negative", "Validation", "Edge", "Security"] : List String)) ∧
    categorize_combination "pay" [("flag", "Checked")] = ["Positive"] :=
  ⟨(claim_C8 "pay" [("flag", "Checked")]).1,
   (claim_C8 "pay" [("flag", "Checked")]).2.1,
   (claim_C8 "pay" [("flag", "Checked")]).2.2.1,
   (claim_C8 "pay" [("flag", "Checked")]).2.2.2 (by decide) (by decide) (by decide)⟩

/-- Claim C9: generate_scenario_tests always returns exactly 4 test cases with
the fixed titles and priorities, for every valid request, regardless of
platform and num_cases. -/
theorem claim_C9 (request : ScenarioRequest)
    (h1 : 3 ≤ request.scenario.length)
    (h2 : request.platform ∈ (["web", "mobile", "api", "desktop", "automotive", "generic"] : List String))
    (h3 : 1 ≤ request.num_cases) (h4 : request.num_cases ≤ 20) :
    (generate_scenario_tests request).length = 4 ∧
    (generate_scenario_tests request).map (fun tc => (tc.title, tc.priority)) =
      [(strTrim request.scenario ++ " - happy path", "High"),
       (strTrim request.scenario ++ " - missing required data", "Medium"),
       (strTrim request.scenario ++ " - invalid data values", "High"),
       (strTrim request.scenario ++ " - boundary and edge conditions", "Medium")] :=
  ⟨rfl, rfl⟩

/-- Witness for C9 at the request (scenario "login", platform "web", 5 cases). -/
theorem claim_C9_witness :
    (3 ≤ ("login" : String).length ∧
      ("web" : String) ∈ (["web", "mobile", "api", "desktop", "automotive", "generic"] : List String) ∧
      1 ≤ 5 ∧ 5 ≤ 20) ∧
    ((generate_scenario_tests { scenario := "login", platform := "web", num_cases := 5 }).length = 4 ∧
      (generate_scenario_tests { scenario := "login", platform := "web", num_cases := 5 }).map
          (fun tc => (tc.title, tc.priority)) =
        [(strTrim "login" ++ " - happy path", "High"),
         (strTrim "login" ++ " - missing required data", "Medium"),
         (strTrim "login" ++ " - invalid data values", "High"),
         (strTrim "login" ++ " - boundary and edge conditions", "Medium")]) :=
  ⟨⟨by decide, by decide, by decide, by decide⟩,
    claim_C9 { scenario := "login", platform := "web", num_cases := 5 }
      (by decide) (by decide) (by decide) (by decide)⟩

/-- Claim C10: classification is independent of binary-field states — two
assignments sharing the text part and differing only in binary-field states
(over the same field names) get identical category lists. -/
theorem claim_C10 (scenario : String) (tp bp1 bp2 : List (String × String))
    (hkeys : bp1.map Prod.fst = bp2.map Prod.fst)
    (htext : ∀ p ∈ tp, p.2 ∈ TEXT_STATES)
    (hb1 : ∀ p ∈ bp1, p.2 ∈ BINARY_STATES)
    (hb2 : ∀ p ∈ bp2, p.2 ∈ BINARY_STATES) :
    categorize_combination scenario (tp ++ bp1) =
      categorize_combination scenario (tp ++ bp2) := by
  rw [categorize_append_binary scenario tp bp1 hb1, categorize_append_binary scenario tp bp2 hb2]

/-- Witness for C10: the login assignment with remember_me toggled. -/
theorem claim_C10_witness :
    (([(("remember_me" : String), ("Checked" : String))].map Prod.fst =
        [(("remember_me" : String), ("Unchecked" : String))].map Prod.fst) ∧
      (∀ p ∈ [(("username" : String), ("Valid" : String)), ("password", "Empty")],
        p.2 ∈ TEXT_STATES) ∧
      (∀ p ∈ [(("remember_me" : String), ("Checked" : String))], p.2 ∈ BINARY_STATES) ∧
      (∀ p ∈ [(("remember_me" : String), ("Unchecked" : String))], p.2 ∈ BINARY_STATES)) ∧
    categorize_combination "login"
        ([(("username" : String), ("Valid" : String)), ("password", "Empty")] ++
          [("remember_me", "Checked")]) =
      categorize_combination "login"
        ([(("username" : String), ("Valid" : String)), ("password", "Empty")] ++
          [("remember_me", "Unchecked")]) :=
  ⟨⟨by decide, by decide, by decide, by decide⟩,
    claim_C10 "login" [("username", "Valid"), ("password", "Empty")]
      [("remember_me", "Checked")] [("remember_me", "Unchecked")]
      (by decide) (by decide) (by decide) (by decide)⟩

end STCG
